import Mathlib

/-!
A verification development for the demo client of the x-trillion landing
page (src/demo_client.py).  The module interprets a free-text query with
ordered substring matching over static tables, fetches data from one of two
remote HTTP services, optionally applies a year-over-year transform, and
composes a chart plus a templated text answer.

The embedding below translates the Python source into Lean: machine floats
become rationals, pandas frames become lists of rows, `None`/NaN becomes
`Option`, and each remote HTTP interaction is an explicit wire value with
all of the failure points of the source (network exception, non-200 status,
JSON decode failure of the response body, an `error` field in the envelope,
JSON decode failure of the inner content text).  The ambient state the
source reads (`datetime.now().year`, the two remote services) is threaded
as explicit parameters.
-/

/-- Character-level helper: does `pat` start `hay`?  Mirrors the leading
part of Python substring search. -/
def leadsWith : List Char → List Char → Bool
  | [], _ => true
  | _ :: _, [] => false
  | p :: ps, h :: hs => p == h && leadsWith ps hs

/-- Does `pat` occur contiguously inside `hay`?  Mirrors Python
`pat in hay` on strings. -/
def occursIn : List Char → List Char → Bool
  | pat, [] => leadsWith pat []
  | pat, h :: hs => leadsWith pat (h :: hs) || occursIn pat hs

/-- Python `pat in hay` for strings. -/
def strContains (hay pat : String) : Bool :=
  occursIn pat.toList hay.toList

/-- Python `str.lower` (ASCII, which is all the source's tables use). -/
def pyLower (s : String) : String :=
  (s.toList.map Char.toLower).asString

/-- ASCII whitespace, the characters Python `str.strip` and `float`
remove on the source's inputs. -/
def isWs (c : Char) : Bool :=
  c == ' ' || c == '\t' || c == '\n' || c == '\r' || c == '\x0b' || c == '\x0c'

/-- Python `str.strip`. -/
def pyStrip (s : String) : String :=
  (((s.toList.dropWhile isWs).reverse.dropWhile isWs).reverse).asString

/-- One step of Python `str.title`: a letter that follows a non-letter is
uppercased, any other letter is lowercased. -/
def titleChars : List Char → Bool → List Char
  | [], _ => []
  | c :: cs, prevAlpha =>
    (if c.isAlpha then (if prevAlpha then c.toLower else c.toUpper) else c) ::
      titleChars cs c.isAlpha

/-- Python `str.title`. -/
def titleCase (s : String) : String :=
  (titleChars s.toList false).asString

/-- Split a character list at the first dot, if any. -/
def splitDot : List Char → List Char × Option (List Char)
  | [] => ([], none)
  | c :: rest =>
    if c == '.' then ([], some rest)
    else
      let r := splitDot rest
      (c :: r.1, r.2)

/-- All characters are decimal digits. -/
def isDigitList (l : List Char) : Bool :=
  l.all (fun c => c.isDigit)

/-- Numeric value of a digit list. -/
def digitsToNat (l : List Char) : Nat :=
  l.foldl (fun acc c => acc * 10 + (c.toNat - 48)) 0

/-- Split a character list at the first `e` or `E`, if any. -/
def splitExp : List Char → List Char × Option (List Char)
  | [] => ([], none)
  | c :: rest =>
    if c == 'e' || c == 'E' then ([], some rest)
    else
      let r := splitExp rest
      (c :: r.1, r.2)

/-- Walk a literal checking that every underscore sits between two digits,
the PEP 515 rule Python `float` enforces; `prev` is the previous
character. -/
def underscoreWalk : Char → List Char → Bool
  | _, [] => true
  | prev, c :: rest =>
    if c == '_' then
      prev.isDigit &&
        (match rest with
          | d :: _ => d.isDigit
          | [] => false) &&
        underscoreWalk c rest
    else underscoreWalk c rest

/-- Strip the digit-group underscores Python `float` accepts, rejecting
misplaced ones. -/
def deUnderscore? (l : List Char) : Option (List Char) :=
  if underscoreWalk ' ' l then some (l.filter (fun c => c != '_')) else none

/-- Parse the exponent part of a float literal: optional sign, at least
one digit. -/
def parseExpPart : List Char → Option Int
  | [] => none
  | c :: rest =>
    if c == '-' then
      if !rest.isEmpty && isDigitList rest then some (-(digitsToNat rest : Int)) else none
    else if c == '+' then
      if !rest.isEmpty && isDigitList rest then some ((digitsToNat rest : Int)) else none
    else
      if isDigitList (c :: rest) then some ((digitsToNat (c :: rest) : Int)) else none

/-- The value Python `float(s)` yields: a finite decimal kept exactly as
significand times `10 ^ exponent`, a signed infinity, or nan.  The
comparisons the source performs on it read the sign off the significand;
`PyFloat.gtZero_iff` and `PyFloat.ltZero_iff` below check that against
the represented number. -/
inductive PyFloat
  | finite (mant : ℚ) (exp : Int)
  | inf (negSign : Bool)
  | nan
deriving DecidableEq

/-- Python `change_val > 0` on the parsed value (false on nan, as IEEE
comparisons are). -/
def PyFloat.gtZero : PyFloat → Bool
  | .finite m _ => decide (0 < m)
  | .inf n => !n
  | .nan => false

/-- Python `change_val < 0` on the parsed value (false on nan). -/
def PyFloat.ltZero : PyFloat → Bool
  | .finite m _ => decide (m < 0)
  | .inf n => n
  | .nan => false

/-- Python `float(s)`: strip whitespace, take an optional sign, accept
`inf`/`infinity`/`nan` case-insensitively, otherwise a decimal literal
with optional digit-group underscores, an optional fractional part (at
least one digit overall) and an optional `e`/`E` exponent.  Returns
`none` where the source's `float` call raises. -/
def pyFloat? (s : String) : Option PyFloat :=
  let cs := (pyStrip s).toList
  let signed : Bool × List Char :=
    match cs with
    | c :: rest =>
      if c == '-' then (true, rest)
      else if c == '+' then (false, rest)
      else (false, cs)
    | [] => (false, [])
  let body := signed.2
  let low := body.map Char.toLower
  if low == "inf".toList || low == "infinity".toList then some (PyFloat.inf signed.1)
  else if low == "nan".toList then some PyFloat.nan
  else
    match deUnderscore? body with
    | none => none
    | some b =>
      let se := splitExp b
      let eo : Option Int :=
        match se.2 with
        | none => some 0
        | some ex => parseExpPart ex
      match eo with
      | none => none
      | some e =>
        let sd := splitDot se.1
        match sd.2 with
        | none =>
          if !sd.1.isEmpty && isDigitList sd.1 then
            some (PyFloat.finite
              (if signed.1 then -(digitsToNat sd.1 : ℚ) else (digitsToNat sd.1 : ℚ)) e)
          else none
        | some frac =>
          if (!sd.1.isEmpty || !frac.isEmpty) && isDigitList sd.1 && isDigitList frac then
            some (PyFloat.finite
              (if signed.1 then -(digitsToNat (sd.1 ++ frac) : ℚ)
               else (digitsToNat (sd.1 ++ frac) : ℚ))
              (e - frac.length))
          else none

/-- Python format `%.1f` for a rational (round half away handled as
round-to-nearest on the exact rational). -/
def fmt1 (q : ℚ) : String :=
  let n : Int := round (q * 10)
  (if n < 0 then "-" else "") ++ toString (n.natAbs / 10) ++ "." ++ toString (n.natAbs % 10)

/-- Insert thousands separators into a reversed digit list. -/
def commaGroup3 : List Char → List Char
  | a :: b :: c :: d :: rest => a :: b :: c :: ',' :: commaGroup3 (d :: rest)
  | l => l

/-- Insert thousands separators into a digit string. -/
def commaGroup (s : String) : String :=
  ((commaGroup3 s.toList.reverse).reverse).asString

/-- Python format `%,.2f` for a rational. -/
def fmt2 (q : ℚ) : String :=
  let n : Int := round (q * 100)
  (if n < 0 then "-" else "") ++ commaGroup (toString (n.natAbs / 100)) ++ "." ++
    (if n.natAbs % 100 < 10 then "0" else "") ++ toString (n.natAbs % 100)

/-- English month name, as `strftime` `%B` produces for a valid month. -/
def monthName (m : Int) : String :=
  if m = 1 then "January" else if m = 2 then "February" else if m = 3 then "March"
  else if m = 4 then "April" else if m = 5 then "May" else if m = 6 then "June"
  else if m = 7 then "July" else if m = 8 then "August" else if m = 9 then "September"
  else if m = 10 then "October" else if m = 11 then "November"
  else if m = 12 then "December" else ""

/-- A calendar date as pandas `to_datetime` yields it (year, month, day);
the source's date strings always parse, so the parsed form is the model. -/
structure Date where
  y : Int
  m : Int
  d : Int
deriving DecidableEq

/-- Chronological comparison of dates. -/
def Date.le (a b : Date) : Bool :=
  decide (a.y < b.y ∨ (a.y = b.y ∧ (a.m < b.m ∨ (a.m = b.m ∧ a.d ≤ b.d))))

/-- Python `strftime` with format `%B %Y`: month name, space, year. -/
def strftimeBY (d : Date) : String :=
  monthName d.m ++ " " ++ toString d.y

/-- One row of the pandas frame: a date and a numeric value, where `none`
models NaN produced by `pd.to_numeric(..., errors="coerce")`. -/
structure Row where
  date : Date
  value : Option ℚ
deriving DecidableEq

/-- Chronological order on rows. -/
def dleP (a b : Row) : Prop :=
  Date.le a.date b.date = true

instance : DecidableRel dleP := fun a b => by
  unfold dleP
  infer_instance

/-- The decoded frame is in ascending date order. -/
def sortedByDate (l : List Row) : Prop :=
  l.Pairwise dleP

instance (l : List Row) : Decidable (sortedByDate l) := by
  unfold sortedByDate
  infer_instance

/-- Insert a row into a date-sorted list, keeping it sorted. -/
def insertRow (a : Row) : List Row → List Row
  | [] => [a]
  | b :: l => if Date.le a.date b.date then a :: b :: l else b :: insertRow a l

/-- `df.sort_values("date")`: sort the rows by date. -/
def sortByDate : List Row → List Row
  | [] => []
  | a :: l => insertRow a (sortByDate l)

/-- `Series.pct_change(periods=12)`: the first twelve results are NaN and
every later entry is `v[i] / v[i-12] - 1`. -/
def pct_change12 (vs : List (Option ℚ)) : List (Option ℚ) :=
  List.replicate (min 12 vs.length) none ++
    List.zipWith
      (fun a b =>
        match a, b with
        | some a, some b => some (b / a - 1)
        | _, _ => none)
      vs (vs.drop 12)

/-- `df["value"] = df["value"].pct_change(periods=12) * 100`: replace the
value column in place. -/
def pct_col (f : List Row) : List Row :=
  List.zipWith (fun r v => { r with value := v }) f
    ((pct_change12 (f.map (fun r => r.value))).map (Option.map (fun x => x * 100)))

/-- `df.dropna()`: keep the rows whose value is present. -/
def dropnaF (f : List Row) : List Row :=
  f.filter (fun r => r.value.isSome)

/-- `transform_to_yoy`: copy, sort by date, replace the value column by
percent change at lag 12, drop the undefined rows. -/
def transform_to_yoy (f : List Row) : List Row :=
  dropnaF (pct_col (sortByDate f))

/-- A heap of pandas frames, indexed by address; models Python object
identity for the mutation claim. -/
def readH (h : List (List Row)) (a : Nat) : List Row :=
  h.getD a []

/-- Overwrite the frame stored at an address. -/
def writeH (h : List (List Row)) (a : Nat) (f : List Row) : List (List Row) :=
  h.set a f

/-- Allocate a fresh frame, returning the new heap and its address. -/
def allocH (h : List (List Row)) (f : List Row) : List (List Row) × Nat :=
  (h ++ [f], h.length)

/-- `transform_to_yoy` with Python reference semantics made explicit: the
argument is an address; `df.copy()` and `df.sort_values` allocate, the
column assignment writes in place to the local copy, `df.dropna()`
allocates the returned frame. -/
def transform_to_yoy_heap (h : List (List Row)) (dfA : Nat) : List (List Row) × Nat :=
  let c := allocH h (readH h dfA)
  let s := allocH c.1 (sortByDate (readH c.1 c.2))
  let h3 := writeH s.1 s.2 (pct_col (readH s.1 s.2))
  let r := allocH h3 (dropnaF (readH h3 s.2))
  (r.1, r.2)

/-- `COUNTRY_CODES`, in source declaration order. -/
def COUNTRY_CODES : List (String × String) :=
  [("france", "FRA"), ("germany", "DEU"), ("uk", "GBR"), ("britain", "GBR"),
   ("japan", "JPN"), ("china", "CHN"), ("india", "IND"), ("brazil", "BRA"),
   ("mexico", "MEX"), ("canada", "CAN"), ("australia", "AUS"), ("italy", "ITA"),
   ("spain", "ESP"), ("argentina", "ARG"), ("russia", "RUS"), ("korea", "KOR"),
   ("indonesia", "IDN"), ("turkey", "TUR"), ("saudi", "SAU"), ("south africa", "ZAF"),
   ("nigeria", "NGA"), ("egypt", "EGY"), ("poland", "POL"), ("netherlands", "NLD"),
   ("belgium", "BEL"), ("sweden", "SWE"), ("norway", "NOR"), ("switzerland", "CHE"),
   ("austria", "AUT"), ("greece", "GRC"), ("portugal", "PRT"), ("ireland", "IRL"),
   ("denmark", "DNK"), ("finland", "FIN"), ("czech", "CZE"), ("hungary", "HUN"),
   ("romania", "ROU"), ("ukraine", "UKR"), ("vietnam", "VNM"), ("thailand", "THA"),
   ("malaysia", "MYS"), ("singapore", "SGP"), ("philippines", "PHL"), ("pakistan", "PAK"),
   ("bangladesh", "BGD"), ("chile", "CHL"), ("colombia", "COL"), ("peru", "PER"),
   ("venezuela", "VEN"), ("israel", "ISR"), ("uae", "ARE"), ("qatar", "QAT"),
   ("kuwait", "KWT"), ("kazakhstan", "KAZ"), ("united states", "USA"), ("us", "USA"),
   ("usa", "USA"), ("america", "USA")]

/-- `QUERY_MAPPINGS`: keyword to (series id, title, y label, transform),
in source declaration order. -/
def QUERY_MAPPINGS : List (String × String × String × String × String) :=
  [("inflation", "CPIAUCSL", "US Inflation Rate (YoY)", "Percent", "yoy"),
   ("us inflation", "CPIAUCSL", "US Inflation Rate (YoY)", "Percent", "yoy"),
   ("cpi", "CPIAUCSL", "US Consumer Price Index", "Index", "level"),
   ("unemployment", "UNRATE", "US Unemployment Rate", "Percent", "level"),
   ("gdp", "GDP", "US Gross Domestic Product", "Billions of Dollars", "level"),
   ("us gdp", "GDP", "US Gross Domestic Product", "Billions of Dollars", "level"),
   ("fed funds", "FEDFUNDS", "Federal Funds Rate", "Percent", "level"),
   ("interest rate", "FEDFUNDS", "Federal Funds Rate", "Percent", "level"),
   ("10 year", "DGS10", "10-Year Treasury Rate", "Percent", "level"),
   ("treasury", "DGS10", "10-Year Treasury Rate", "Percent", "level")]

/-- `detect_country`: first table entry whose name occurs in the
lower-cased query, title-cased name and code returned. -/
def detect_country (query : String) : Option (String × String) :=
  (COUNTRY_CODES.find? (fun p => strContains (pyLower query) p.1)).map
    (fun p => (titleCase p.1, p.2))

/-- `detect_indicator`: keyword groups tried in order, defaulting to GDP
growth. -/
def detect_indicator (query : String) : String × String × String :=
  let ql := pyLower query
  if strContains ql "inflation" || strContains ql "cpi" || strContains ql "price" then
    ("imf_inflation", "Inflation Rate", "Percent")
  else if strContains ql "unemployment" || strContains ql "jobless" then
    ("imf_unemployment", "Unemployment Rate", "Percent")
  else if strContains ql "current account" || strContains ql "trade balance" then
    ("imf_current_account", "Current Account Balance", "% of GDP")
  else
    ("imf_gdp", "Real GDP Growth", "Percent")

/-- The `QUERY_MAPPINGS` loop of `get_demo_response`: first keyword that
occurs in the lower-cased stripped query wins. -/
def find_mapping (ql : String) : Option (String × String × String × String) :=
  (QUERY_MAPPINGS.find? (fun kv => strContains ql kv.1)).map (fun kv => kv.2)

/-- The text of one element of the envelope's `content` array, after the
inner `json.loads`: either the load raised, or it yielded a payload. -/
inductive MContent (P : Type)
  | badJson
  | payload (p : P)
deriving DecidableEq

/-- One remote HTTP interaction: a network exception, or a response with a
status code and a body.  `none` for the body is a `response.json()` decode
failure; otherwise the body records whether the envelope has an `error`
field and the decoded `content` array. -/
inductive MWire (P : Type)
  | netError
  | resp (status : Nat) (body : Option (Bool × List (MContent P)))
deriving DecidableEq

/-- The inner payload of the FRED timeseries tool: optional metadata fields
and the `chart_data` rows (a missing `chart_data` key is the empty list,
exactly as `result.get("chart_data", [])` reads it). -/
structure FredPayload where
  title : Option String
  units : Option String
  frequency : Option String
  chart_data : List Row
deriving DecidableEq

/-- The `series_info` dictionary built by `get_fred_data`; the failure
paths return an empty dictionary, whose reads below behave exactly like
empty-string fields. -/
structure SeriesInfo where
  title : String
  units : String
  frequency : String
deriving DecidableEq

/-- The inner payload of an IMF summary tool, each field optional as the
source reads them with `dict.get` defaults. -/
structure ImfPayload where
  title : Option String
  country : Option String
  latest_value : Option ℚ
  latest_year : Option String
  previous_value : Option ℚ
  previous_year : Option String
  change : Option String
deriving DecidableEq

/-- `get_fred_data`, given the wire outcome of its one HTTP call: any
failure or empty `chart_data` yields `(none, empty info)`; on success the
rows are date-parsed, numerically coerced and NaN rows dropped, in the
order the remote sent them. -/
def get_fred_data (w : MWire FredPayload) : Option (List Row) × SeriesInfo :=
  match w with
  | .netError => (none, ⟨"", "", ""⟩)
  | .resp status body =>
    if status = 200 then
      match body with
      | none => (none, ⟨"", "", ""⟩)
      | some (hasErr, content) =>
        if hasErr then (none, ⟨"", "", ""⟩)
        else
          match content with
          | [] => (none, ⟨"", "", ""⟩)
          | .badJson :: _ => (none, ⟨"", "", ""⟩)
          | .payload p :: _ =>
            match p.chart_data with
            | [] => (none, ⟨"", "", ""⟩)
            | r :: rs =>
              (some ((r :: rs).filter (fun row => row.value.isSome)),
               ⟨p.title.getD "", p.units.getD "", p.frequency.getD ""⟩)
    else (none, ⟨"", "", ""⟩)

/-- `get_imf_data`, given the wire outcome of its one HTTP call: any
failure yields `none`; on success the decoded summary dictionary is
returned together with its title and country fields. -/
def get_imf_data (w : MWire ImfPayload) : Option ImfPayload × (String × String) :=
  match w with
  | .netError => (none, ("", ""))
  | .resp status body =>
    if status = 200 then
      match body with
      | none => (none, ("", ""))
      | some (hasErr, content) =>
        if hasErr then (none, ("", ""))
        else
          match content with
          | [] => (none, ("", ""))
          | .badJson :: _ => (none, ("", ""))
          | .payload p :: _ => (some p, (p.title.getD "", p.country.getD ""))
    else (none, ("", ""))

/-- The chart markup, abstracted to the figure data the source feeds the
charting library: a filled line over a frame, or a two-bar year
comparison. -/
inductive Chart
  | line (rows : List Row) (title yLabel : String)
  | bars (xs : List String) (ys : List ℚ) (title yLabel : String)
deriving DecidableEq

/-- `create_chart`: a line chart over the frame. -/
def create_chart (df : List Row) (title yLabel : String) : Chart :=
  Chart.line df title yLabel

/-- Lines 252-258 of the source: direction word and arrow glyph from the
`change` string; a `float` parse failure degrades to `("changed", "")`. -/
def direction_of (change : String) : String × String :=
  match pyFloat? change with
  | some v =>
    (if v.gtZero then "up" else if v.ltZero then "down" else "unchanged",
     if v.gtZero then "📈" else if v.ltZero then "📉" else "➡️")
  | none => ("changed", "")

/-- The IMF success text template. -/
def imf_success_text (country_name indicator_title latest_year : String)
    (latest_value : ℚ) (previous_year : String) (previous_value : ℚ)
    (change emoji : String) : String :=
  "Here\x27s **" ++ country_name ++ "\x27s " ++ indicator_title ++ "** from IMF:\n\n**" ++
    latest_year ++ ":** " ++ fmt1 latest_value ++ "%  " ++ emoji ++ "\n**" ++
    previous_year ++ ":** " ++ fmt1 previous_value ++ "%\n\nYear-over-year change: **" ++
    change ++ "%**\n\n*Source: IMF World Economic Outlook*"

/-- The IMF failure apology text. -/
def imf_apology (indicator_title country_name : String) : String :=
  "I couldn\x27t retrieve " ++ indicator_title ++ " data for " ++ country_name ++
    ". Please try the full Minerva app."

/-- Lines 244-291 of the source: compose the IMF-path response from the
fetched summary. -/
def imf_respond (country_name indicator_title y_label : String)
    (w : MWire ImfPayload) : String × Option Chart × String :=
  match (get_imf_data w).1 with
  | some p =>
    let latest_value := p.latest_value.getD 0
    let latest_year := p.latest_year.getD ""
    let previous_value := p.previous_value.getD 0
    let previous_year := p.previous_year.getD ""
    let change := p.change.getD "0"
    (imf_success_text country_name indicator_title latest_year latest_value
        previous_year previous_value change (direction_of change).2,
     some (Chart.bars [previous_year, latest_year] [previous_value, latest_value]
        (country_name ++ " " ++ indicator_title) y_label),
     "Isla")
  | none => (imf_apology indicator_title country_name, none, "Isla")

/-- The FRED yoy success text template. -/
def fred_yoy_text (title latest_date : String) (latest_value : ℚ) : String :=
  "Here\x27s the latest **" ++ title ++ "** data from FRED:\n\n**Current Inflation (" ++
    latest_date ++ "):** " ++ fmt1 latest_value ++
    "%\n\nUS inflation is currently running at **" ++ fmt1 |latest_value| ++
    "%** year-over-year, based on the Consumer Price Index.\n\nThe chart below shows the inflation trend over the past 10 years."

/-- The FRED level success text template. -/
def fred_level_text (title latest_date : String) (latest_value : ℚ) (y_label : String) : String :=
  "Here\x27s the latest **" ++ title ++ "** data from FRED:\n\n**Latest Reading (" ++
    latest_date ++ "):** " ++ fmt2 latest_value ++ " " ++ y_label ++
    "\n\nThe chart below shows the historical trend over the past 10 years."

/-- The FRED failure apology text. -/
def fred_apology (default_title : String) : String :=
  "I tried to fetch " ++ default_title ++ " data but couldn\x27t retrieve it. Please try again."

/-- The unmatched-query help text. -/
def help_text : String :=
  "I can help you with US economic data from FRED! Try asking about:\n\n• **Inflation** - Consumer Price Index (CPI)\n• **Unemployment** - US unemployment rate\n• **GDP** - Gross Domestic Product\n• **Fed Funds Rate** - Federal Reserve interest rate\n• **Treasury Rates** - 10-year yields\n\nJust ask something like \"Show me US inflation\" or \"What\x27s the unemployment rate?\"\n"

/-- Python `x or default` on the falsy empty string. -/
def strOr (s d : String) : String :=
  if s = "" then d else s

/-- Lines 307-346 of the source: compose the FRED-path response from the
fetched frame and series info. -/
def fred_respond (default_title default_y_label xf : String) :
    Option (List Row) × SeriesInfo → String × Option Chart × String
  | (none, _) => (fred_apology default_title, none, "Fred")
  | (some df, info) =>
    match df with
    | [] => (fred_apology default_title, none, "Fred")
    | _ :: _ =>
      let df2 := if xf = "yoy" then transform_to_yoy df else df
      let title := if xf = "yoy" then default_title else strOr info.title default_title
      let y_label := if xf = "yoy" then default_y_label else strOr info.units default_y_label
      match df2.getLast? with
      | none => (fred_apology default_title, none, "Fred")
      | some latest =>
        ((if xf = "yoy" then
            fred_yoy_text title (strftimeBY latest.date) (latest.value.getD 0)
          else
            fred_level_text title (strftimeBY latest.date) (latest.value.getD 0) y_label),
         some (create_chart df2 title y_label),
         "Fred")

/-- The `start_date` string `get_fred_data` sends, from the current year. -/
def start_date (nowYear : Int) : String :=
  toString (nowYear - 10) ++ "-01-01"

/-- Lines 293-358 of the source: the domestic branch, from the stripped
lower-cased query. -/
def fred_path (nowYear : Int) (fredO : String → String → MWire FredPayload)
    (query_lower : String) : String × Option Chart × String :=
  match find_mapping query_lower with
  | some (sid, dt, dy, xf) => fred_respond dt dy xf (get_fred_data (fredO sid (start_date nowYear)))
  | none => (help_text, none, "Grace")

/-- `get_demo_response`, with the ambient world (current year, the two
remote services keyed by their call arguments) passed explicitly. -/
def get_demo_response (nowYear : Int) (imfO : String → String → MWire ImfPayload)
    (fredO : String → String → MWire FredPayload) (query : String) :
    String × Option Chart × String :=
  let query_lower := pyStrip (pyLower query)
  match detect_country query with
  | some (cn, cc) =>
    if cc ≠ "USA" then
      let ind := detect_indicator query
      imf_respond cn ind.2.1 ind.2.2 (imfO cc ind.1)
    else fred_path nowYear fredO query_lower
  | none => fred_path nowYear fredO query_lower

/-- Which remote service a resolved request targets. -/
inductive Source
  | FRED
  | IMF
deriving DecidableEq

/-- The spec's ResolvedRequest: source, series id or indicator tool,
optional country code, display labels, and the transform flag of the
domestic table (the international path carries no transform). -/
structure ResolvedRequest where
  source : Source
  key : String
  countryCode : Option String
  title : String
  yLabel : String
  xf : Option String
deriving DecidableEq

/-- The query-interpretation stage of `get_demo_response`, factored out
verbatim: the decision data computed before any network call.  `none` is
the unresolved case.  The ambient year is threaded to express that
resolution ignores it. -/
def resolve (nowYear : Int) (query : String) : Option ResolvedRequest :=
  let query_lower := pyStrip (pyLower query)
  let domestic : Option ResolvedRequest :=
    (find_mapping query_lower).map
      (fun kv => ⟨Source.FRED, kv.1, none, kv.2.1, kv.2.2.1, some kv.2.2.2⟩)
  match detect_country query with
  | some (_, cc) =>
    if cc ≠ "USA" then
      let ind := detect_indicator query
      some ⟨Source.IMF, ind.1, some cc, ind.2.1, ind.2.2, none⟩
    else domestic
  | none => domestic

/-- Every branch of the FRED-path composer carries the domestic persona. -/
theorem fred_respond_agent (dt dy xf : String) (r : Option (List Row) × SeriesInfo) :
    (fred_respond dt dy xf r).2.2 = "Fred" := by
  rcases r with ⟨_ | df, info⟩
  · rfl
  · rcases df with _ | ⟨a, l⟩
    · rfl
    · simp only [fred_respond]
      split <;> rfl

/-- Every branch of the IMF-path composer carries the international
persona. -/
theorem imf_respond_agent (cn it yl : String) (w : MWire ImfPayload) :
    (imf_respond cn it yl w).2.2 = "Isla" := by
  simp only [imf_respond]
  split <;> rfl

/-- C9: query resolution is deterministic — it ignores the ambient year
(the only state the module reads besides its static tables), and the full
response is a function of the query and the remote oracles alone. -/
theorem c9_resolve_deterministic :
    (∀ (y₁ y₂ : Int) (q : String), resolve y₁ q = resolve y₂ q) ∧
    (∀ (y : Int) (imfO : String → String → MWire ImfPayload)
       (fredO : String → String → MWire FredPayload) (q : String),
       get_demo_response y imfO fredO q = get_demo_response y imfO fredO q) :=
  ⟨fun _ _ _ => rfl, fun _ _ _ _ => rfl⟩

/-- C7: the query "Show me US inflation" resolves to the domestic path
with the CPI series, the yoy transform, and the domestic persona for every
remote outcome. -/
theorem c7_us_inflation_scenario :
    detect_country "Show me US inflation" = some ("Us", "USA") ∧
    find_mapping (pyStrip (pyLower "Show me US inflation")) =
      some ("CPIAUCSL", "US Inflation Rate (YoY)", "Percent", "yoy") ∧
    resolve 2025 "Show me US inflation" =
      some ⟨Source.FRED, "CPIAUCSL", none, "US Inflation Rate (YoY)", "Percent", some "yoy"⟩ ∧
    ∀ (ny : Int) (imfO : String → String → MWire ImfPayload)
      (fredO : String → String → MWire FredPayload),
      (get_demo_response ny imfO fredO "Show me US inflation").2.2 = "Fred" := by
  have hdc : detect_country "Show me US inflation" = some ("Us", "USA") := by decide
  have hfm : find_mapping (pyStrip (pyLower "Show me US inflation")) =
      some ("CPIAUCSL", "US Inflation Rate (YoY)", "Percent", "yoy") := by decide
  refine ⟨hdc, hfm, by decide, ?_⟩
  intro ny imfO fredO
  simp only [get_demo_response, hdc, ne_eq, not_true_eq_false, ite_false, if_neg,
    fred_path, hfm]
  exact fred_respond_agent _ _ _ _

/-- C8: the query about Brazil's GDP growth resolves to the international
path with country code BRA, the GDP-growth tool, and the international
persona for every remote outcome. -/
theorem c8_brazil_gdp_scenario :
    detect_country "What\x27s Brazil\x27s GDP growth?" = some ("Brazil", "BRA") ∧
    detect_indicator "What\x27s Brazil\x27s GDP growth?" =
      ("imf_gdp", "Real GDP Growth", "Percent") ∧
    resolve 2025 "What\x27s Brazil\x27s GDP growth?" =
      some ⟨Source.IMF, "imf_gdp", some "BRA", "Real GDP Growth", "Percent", none⟩ ∧
    ∀ (ny : Int) (imfO : String → String → MWire ImfPayload)
      (fredO : String → String → MWire FredPayload),
      (get_demo_response ny imfO fredO "What\x27s Brazil\x27s GDP growth?").2.2 = "Isla" := by
  have hdc : detect_country "What\x27s Brazil\x27s GDP growth?" = some ("Brazil", "BRA") := by
    decide
  refine ⟨hdc, by decide, by decide, ?_⟩
  intro ny imfO fredO
  simp only [get_demo_response, hdc]
  rw [if_pos (by decide)]
  exact imf_respond_agent _ _ _ _

/-- C4: a query matching no country name and no domestic keyword yields
the fixed help text, no chart, and the fallback persona. -/
theorem c4_unmatched_query (q : String)
    (hc : ∀ p ∈ COUNTRY_CODES, strContains (pyLower q) p.1 = false)
    (hk : ∀ p ∈ QUERY_MAPPINGS, strContains (pyStrip (pyLower q)) p.1 = false) :
    ∀ (ny : Int) (imfO : String → String → MWire ImfPayload)
      (fredO : String → String → MWire FredPayload),
      get_demo_response ny imfO fredO q = (help_text, none, "Grace") := by
  intro ny imfO fredO
  have h1 : detect_country q = none := by
    unfold detect_country
    rw [List.find?_eq_none.mpr (fun x hx => by simp [hc x hx])]
    rfl
  have h2 : find_mapping (pyStrip (pyLower q)) = none := by
    unfold find_mapping
    rw [List.find?_eq_none.mpr (fun x hx => by simp [hk x hx])]
    rfl
  simp only [get_demo_response, h1, fred_path, h2]

/-- Witness for C4 at the query "hello". -/
theorem c4_unmatched_query_witness :
    get_demo_response 2025 (fun _ _ => MWire.netError) (fun _ _ => MWire.netError) "hello" =
      (help_text, none, "Grace") :=
  c4_unmatched_query "hello" (by decide) (by decide) 2025 _ _

/-- The failure modes the spec lists for one remote interaction: network
error, non-200 status, decode failure of the response body, an `error`
field in the envelope, or decode failure of the inner content text. -/
def wireFails {P : Type} (w : MWire P) : Prop :=
  w = MWire.netError ∨
  (∃ s b, w = MWire.resp s b ∧ s ≠ 200) ∨
  w = MWire.resp 200 none ∨
  (∃ c, w = MWire.resp 200 (some (true, c))) ∨
  (∃ c, w = MWire.resp 200 (some (false, MContent.badJson :: c)))

/-- Any listed failure mode makes the IMF fetch yield no data. -/
theorem get_imf_data_fails {w : MWire ImfPayload} (h : wireFails w) :
    get_imf_data w = (none, ("", "")) := by
  rcases h with rfl | ⟨s, b, rfl, hs⟩ | rfl | ⟨c, rfl⟩ | ⟨c, rfl⟩ <;>
    simp_all [get_imf_data]

/-- Any listed failure mode makes the FRED fetch yield no data. -/
theorem get_fred_data_fails {w : MWire FredPayload} (h : wireFails w) :
    get_fred_data w = (none, ⟨"", "", ""⟩) := by
  rcases h with rfl | ⟨s, b, rfl, hs⟩ | rfl | ⟨c, rfl⟩ | ⟨c, rfl⟩ <;>
    simp_all [get_fred_data]

/-- C3: when the remote fetch fails for any of the listed reasons, the
response is the apology text with no chart, attributed to the persona the
successful path would have used (international and domestic cases). -/
theorem c3_failure_apology :
    (∀ (q cn cd : String) (ny : Int)
       (imfO : String → String → MWire ImfPayload)
       (fredO : String → String → MWire FredPayload),
       detect_country q = some (cn, cd) → cd ≠ "USA" →
       wireFails (imfO cd (detect_indicator q).1) →
       get_demo_response ny imfO fredO q =
         (imf_apology (detect_indicator q).2.1 cn, none, "Isla") ∧
       ∀ w, (imf_respond cn (detect_indicator q).2.1 (detect_indicator q).2.2 w).2.2 =
         "Isla") ∧
    (∀ (q sid dt dy xf : String) (ny : Int)
       (imfO : String → String → MWire ImfPayload)
       (fredO : String → String → MWire FredPayload),
       (detect_country q = none ∨ ∃ cn, detect_country q = some (cn, "USA")) →
       find_mapping (pyStrip (pyLower q)) = some (sid, dt, dy, xf) →
       wireFails (fredO sid (start_date ny)) →
       get_demo_response ny imfO fredO q = (fred_apology dt, none, "Fred") ∧
       ∀ r, (fred_respond dt dy xf r).2.2 = "Fred") := by
  constructor
  · intro q cn cd ny imfO fredO hdc hcd hfail
    refine ⟨?_, fun w => imf_respond_agent _ _ _ _⟩
    simp only [get_demo_response, hdc]
    rw [if_pos hcd]
    simp only [imf_respond, get_imf_data_fails hfail]
  · intro q sid dt dy xf ny imfO fredO hdc hfm hfail
    refine ⟨?_, fun r => fred_respond_agent _ _ _ _⟩
    have hfred : fred_respond dt dy xf (get_fred_data (fredO sid (start_date ny))) =
        (fred_apology dt, none, "Fred") := by
      rw [get_fred_data_fails hfail]
      rfl
    rcases hdc with h | ⟨cn, h⟩
    · simp only [get_demo_response, h, fred_path, hfm, hfred]
    · simp only [get_demo_response, h, ne_eq, not_true_eq_false, ite_false, if_neg,
        fred_path, hfm, hfred]

/-- Witness for C3: a network error on the Brazil query yields the IMF
apology with no chart under the international persona, and on the CPI
query the FRED apology with no chart under the domestic persona. -/
theorem c3_failure_apology_witness :
    get_demo_response 2025 (fun _ _ => MWire.netError) (fun _ _ => MWire.netError) "brazil" =
      (imf_apology "Real GDP Growth" "Brazil", none, "Isla") ∧
    get_demo_response 2025 (fun _ _ => MWire.netError) (fun _ _ => MWire.netError) "cpi" =
      (fred_apology "US Consumer Price Index", none, "Fred") := by
  constructor
  · have h := (c3_failure_apology.1 "brazil" "Brazil" "BRA" 2025
      (fun _ _ => MWire.netError) (fun _ _ => MWire.netError)
      (by decide) (by decide) (Or.inl rfl)).1
    rw [h]
    rfl
  · exact (c3_failure_apology.2 "cpi" "CPIAUCSL" "US Consumer Price Index" "Index" "level"
      2025 (fun _ _ => MWire.netError) (fun _ _ => MWire.netError)
      (Or.inl (by decide)) (by decide) (Or.inl rfl)).1

/-- The significand sign test is the sign of the represented finite
number. -/
theorem PyFloat.gtZero_iff (m : ℚ) (e : Int) :
    (PyFloat.finite m e).gtZero = true ↔ 0 < m * 10 ^ e := by
  have hp : (0 : ℚ) < 10 ^ e := zpow_pos (by norm_num) e
  simp only [PyFloat.gtZero, decide_eq_true_eq]
  constructor
  · intro h
    exact mul_pos h hp
  · intro h
    nlinarith

/-- The significand sign test is the sign of the represented finite
number, negative case. -/
theorem PyFloat.ltZero_iff (m : ℚ) (e : Int) :
    (PyFloat.finite m e).ltZero = true ↔ m * 10 ^ e < 0 := by
  have hp : (0 : ℚ) < 10 ^ e := zpow_pos (by norm_num) e
  simp only [PyFloat.ltZero, decide_eq_true_eq]
  constructor
  · intro h
    exact mul_neg_of_neg_of_pos h hp
  · intro h
    nlinarith

/-- C6: a `change` that `float` parses to a positive, negative, or zero
number yields up/down/unchanged with the matching glyph (infinities
included, by their sign); an unparsable `change` degrades to the neutral
label with no glyph while the response still succeeds with every other
summary field rendered as on the numeric path. -/
theorem c6_change_direction :
    (∀ (ch : String) (m : ℚ) (e : Int), pyFloat? ch = some (PyFloat.finite m e) →
       0 < m * 10 ^ e → direction_of ch = ("up", "📈")) ∧
    (∀ (ch : String) (m : ℚ) (e : Int), pyFloat? ch = some (PyFloat.finite m e) →
       m * 10 ^ e < 0 → direction_of ch = ("down", "📉")) ∧
    (∀ (ch : String) (e : Int), pyFloat? ch = some (PyFloat.finite 0 e) →
       direction_of ch = ("unchanged", "➡️")) ∧
    (∀ ch : String, pyFloat? ch = some (PyFloat.inf false) →
       direction_of ch = ("up", "📈")) ∧
    (∀ ch : String, pyFloat? ch = some (PyFloat.inf true) →
       direction_of ch = ("down", "📉")) ∧
    (∀ ch : String, pyFloat? ch = none →
       direction_of ch = ("changed", "") ∧
       ∀ (cn it yl : String) (p : ImfPayload), p.change = some ch →
         imf_respond cn it yl (MWire.resp 200 (some (false, [MContent.payload p]))) =
           (imf_success_text cn it (p.latest_year.getD "") (p.latest_value.getD 0)
              (p.previous_year.getD "") (p.previous_value.getD 0) ch "",
            some (Chart.bars [p.previous_year.getD "", p.latest_year.getD ""]
              [p.previous_value.getD 0, p.latest_value.getD 0] (cn ++ " " ++ it) yl),
            "Isla")) := by
  refine ⟨?_, ?_, ?_, ?_, ?_, ?_⟩
  · intro ch m e hp hv
    have hg : (PyFloat.finite m e).gtZero = true := (PyFloat.gtZero_iff m e).mpr hv
    simp [direction_of, hp, hg]
  · intro ch m e hp hv
    have hl : (PyFloat.finite m e).ltZero = true := (PyFloat.ltZero_iff m e).mpr hv
    have hg : (PyFloat.finite m e).gtZero = false := by
      have hm : m < 0 := by
        simpa only [PyFloat.ltZero, decide_eq_true_eq] using hl
      simp only [PyFloat.gtZero, decide_eq_false_iff_not]
      exact not_lt.mpr hm.le
    simp [direction_of, hp, hg, hl]
  · intro ch e hp
    simp [direction_of, hp, PyFloat.gtZero, PyFloat.ltZero]
  · intro ch hp
    simp [direction_of, hp, PyFloat.gtZero, PyFloat.ltZero]
  · intro ch hp
    simp [direction_of, hp, PyFloat.gtZero, PyFloat.ltZero]
  · intro ch hp
    have hd : direction_of ch = ("changed", "") := by simp [direction_of, hp]
    refine ⟨hd, ?_⟩
    intro cn it yl p hch
    simp [imf_respond, get_imf_data, hch, hd]

/-- Witness for C6 at the scientific-notation change "5e-05", the signed
"-2", the zero "0.0", both infinities, and the unparsable "n/a". -/
theorem c6_change_direction_witness :
    direction_of "5e-05" = ("up", "📈") ∧
    direction_of "-2" = ("down", "📉") ∧
    direction_of "0.0" = ("unchanged", "➡️") ∧
    direction_of "inf" = ("up", "📈") ∧
    direction_of "-Infinity" = ("down", "📉") ∧
    direction_of "n/a" = ("changed", "") ∧
    imf_respond "Brazil" "Real GDP Growth" "Percent"
        (MWire.resp 200 (some (false, [MContent.payload
          ⟨some "T", some "Brazil", some 3, some "2024", some 2, some "2023", some "n/a"⟩]))) =
      (imf_success_text "Brazil" "Real GDP Growth" "2024" 3 "2023" 2 "n/a" "",
       some (Chart.bars ["2023", "2024"] [2, 3] "Brazil Real GDP Growth" "Percent"),
       "Isla") := by
  refine ⟨?_, ?_, ?_, ?_, ?_, ?_, ?_⟩
  · exact c6_change_direction.1 "5e-05" 5 (-5) (by decide) (by positivity)
  · exact c6_change_direction.2.1 "-2" (-2) 0 (by decide) (by norm_num)
  · exact c6_change_direction.2.2.1 "0.0" (-1) (by decide)
  · exact c6_change_direction.2.2.2.1 "inf" (by decide)
  · exact c6_change_direction.2.2.2.2.1 "-Infinity" (by decide)
  · exact (c6_change_direction.2.2.2.2.2 "n/a" (by decide)).1
  · exact (c6_change_direction.2.2.2.2.2 "n/a" (by decide)).2 "Brazil" "Real GDP Growth"
      "Percent" _ rfl

/-- The first table entry, in declaration order, whose predicate holds is
what `List.find?` returns. -/
theorem find?_of_first {α : Type} (P : α → Bool) :
    ∀ (l : List α) (i : Nat) (x : α), l[i]? = some x → P x = true →
      (∀ j, j < i → (l[j]?.all fun y => !P y) = true) →
      l.find? P = some x := by
  intro l
  induction l with
  | nil => intro i x h; simp at h
  | cons a t ih =>
    intro i x hx hPx hfirst
    cases i with
    | zero =>
      simp only [List.getElem?_cons_zero, Option.some.injEq] at hx
      subst hx
      exact List.find?_cons_of_pos _ hPx
    | succ k =>
      have ha : P a = false := by
        have h0 := hfirst 0 (Nat.succ_pos k)
        simpa using h0
      rw [List.find?_cons_of_neg _ (by simp [ha])]
      refine ih k x (by simpa using hx) hPx ?_
      intro j hj
      have := hfirst (j + 1) (Nat.succ_lt_succ hj)
      simpa using this

/-- C1: if entry `i` of the country table is the first whose name occurs
in the lower-cased query and its code is not the domestic one, detection
returns that entry (title-cased) and the response is the international
branch evaluated at the IMF oracle's reply for exactly that country code
and the detected indicator tool. -/
theorem c1_country_first_match (q : String) (i : Nat) (nm cd : String)
    (hi : COUNTRY_CODES[i]? = some (nm, cd))
    (hm : strContains (pyLower q) nm = true)
    (hfirst : ∀ j, j < i →
      (COUNTRY_CODES[j]?.all fun p => !strContains (pyLower q) p.1) = true)
    (hcd : cd ≠ "USA") :
    detect_country q = some (titleCase nm, cd) ∧
    ∀ (ny : Int) (imfO : String → String → MWire ImfPayload)
      (fredO : String → String → MWire FredPayload),
      get_demo_response ny imfO fredO q =
        imf_respond (titleCase nm) (detect_indicator q).2.1 (detect_indicator q).2.2
          (imfO cd (detect_indicator q).1) := by
  have hfind : COUNTRY_CODES.find? (fun p => strContains (pyLower q) p.1) = some (nm, cd) :=
    find?_of_first _ _ i _ hi hm hfirst
  have hdc : detect_country q = some (titleCase nm, cd) := by
    unfold detect_country
    rw [hfind]
    rfl
  refine ⟨hdc, ?_⟩
  intro ny imfO fredO
  simp only [get_demo_response, hdc]
  rw [if_pos hcd]

/-- Witness for C1: "brazil" is entry 7 of the table, no earlier entry
matches, and the response is the IMF branch at code BRA. -/
theorem c1_country_first_match_witness :
    get_demo_response 2025 (fun _ _ => MWire.netError) (fun _ _ => MWire.netError) "brazil" =
      imf_respond (titleCase "brazil") (detect_indicator "brazil").2.1
        (detect_indicator "brazil").2.2
        ((fun _ _ => MWire.netError) "BRA" (detect_indicator "brazil").1) :=
  (c1_country_first_match "brazil" 7 "brazil" "BRA" (by decide) (by decide)
    (by decide) (by decide)).2 2025 _ _

/-- Date comparison is transitive. -/
theorem dle_trans {a b c : Row} (h₁ : dleP a b) (h₂ : dleP b c) : dleP a c := by
  simp only [dleP, Date.le, decide_eq_true_eq] at h₁ h₂ ⊢
  omega

/-- Date comparison is total. -/
theorem dle_total (a b : Row) : dleP a b ∨ dleP b a := by
  simp only [dleP, Date.le, decide_eq_true_eq]
  omega

/-- Membership in an insertion. -/
theorem mem_insertRow {a x : Row} : ∀ {l : List Row}, x ∈ insertRow a l → x = a ∨ x ∈ l := by
  intro l
  induction l with
  | nil => intro h; left; simpa [insertRow] using h
  | cons b t ih =>
    intro h
    unfold insertRow at h
    split at h
    · rcases List.mem_cons.mp h with h | h
      · exact Or.inl h
      · exact Or.inr h
    · rcases List.mem_cons.mp h with h | h
      · exact Or.inr (h ▸ List.mem_cons_self b t)
      · rcases ih h with h | h
        · exact Or.inl h
        · exact Or.inr (List.mem_cons_of_mem b h)

/-- Insertion into a date-sorted list keeps it sorted. -/
theorem pairwise_insertRow (a : Row) :
    ∀ {l : List Row}, List.Pairwise dleP l → List.Pairwise dleP (insertRow a l) := by
  intro l
  induction l with
  | nil => intro _; simp [insertRow, List.pairwise_singleton]
  | cons b t ih =>
    intro h
    rcases List.pairwise_cons.mp h with ⟨hb, ht⟩
    unfold insertRow
    split
    · rename_i hab
      refine List.pairwise_cons.mpr ⟨?_, h⟩
      intro x hx
      rcases List.mem_cons.mp hx with rfl | hx
      · exact hab
      · exact dle_trans hab (hb x hx)
    · rename_i hab
      refine List.pairwise_cons.mpr ⟨?_, ih ht⟩
      intro x hx
      rcases mem_insertRow hx with rfl | hx
      · rcases dle_total x b with h | h
        · exact absurd h hab
        · exact h
      · exact hb x hx

/-- The sort produces a date-sorted list. -/
theorem pairwise_sortByDate (l : List Row) : List.Pairwise dleP (sortByDate l) := by
  induction l with
  | nil => simp [sortByDate]
  | cons a t ih => exact pairwise_insertRow a ih

/-- Replacing the value column leaves each row's date in place, so every
row of the result shares a date with some row of the input. -/
theorem mem_zip_upd_date :
    ∀ (l : List Row) (vs : List (Option ℚ)) (b : Row),
      b ∈ List.zipWith (fun r v => { r with value := v }) l vs → ∃ a ∈ l, b.date = a.date := by
  intro l
  induction l with
  | nil => intro vs b h; simp at h
  | cons a t ih =>
    intro vs b h
    cases vs with
    | nil => simp at h
    | cons v vt =>
      rcases List.mem_cons.mp h with rfl | h
      · exact ⟨a, List.mem_cons_self a t, rfl⟩
      · rcases ih vt b h with ⟨a', ha', hd⟩
        exact ⟨a', List.mem_cons_of_mem a ha', hd⟩

/-- The value-column replacement preserves date-sortedness. -/
theorem pairwise_zip_upd :
    ∀ (l : List Row) (vs : List (Option ℚ)), List.Pairwise dleP l →
      List.Pairwise dleP (List.zipWith (fun r v => { r with value := v }) l vs) := by
  intro l
  induction l with
  | nil => intro vs _; simp
  | cons a t ih =>
    intro vs h
    rcases List.pairwise_cons.mp h with ⟨ha, ht⟩
    cases vs with
    | nil => simp
    | cons v vt =>
      refine List.pairwise_cons.mpr ⟨?_, ih vt ht⟩
      intro b hb
      rcases mem_zip_upd_date t vt b hb with ⟨a', ha', hd⟩
      have : dleP a a' := ha a' ha'
      simpa [dleP, hd] using this

/-- The wire value of a successful FRED fetch. -/
def fredSuccessWire (t u fr : String) (rows : List Row)
    (rest : List (MContent FredPayload)) : MWire FredPayload :=
  MWire.resp 200 (some (false, MContent.payload ⟨some t, some u, some fr, rows⟩ :: rest))

/-- The out-of-order two-row frame a remote is free to send. -/
def rows0 : List Row :=
  [⟨⟨2020, 2, 1⟩, some 5⟩, ⟨⟨2020, 1, 1⟩, some 3⟩]

/-- Counterexample to C5: the decoder does not sort.  A successful FRED
response whose rows arrive out of date order decodes to an unsorted
sequence, and that very sequence is the one the level chart renders. -/
theorem c5_counterexample :
    (get_fred_data (fredSuccessWire "T" "U" "Monthly" rows0 [])).1 = some rows0 ∧
    ¬ sortedByDate rows0 ∧
    (get_demo_response 2025 (fun _ _ => MWire.netError)
        (fun _ _ => fredSuccessWire "T" "U" "Monthly" rows0 []) "cpi").2.1 =
      some (Chart.line rows0 "T" "U") := by
  refine ⟨by decide, by decide, by decide⟩

/-- C5 amended: decoding keeps exactly the numerically parsable rows, in
the order the remote sent them (so the decoded sequence — fed to the level
chart and into the transform — is sorted only if the remote's order was);
the sort happens inside the year-over-year transform, whose output is
always sorted ascending by date. -/
theorem c5_decode_and_sort :
    (∀ (t u fr : String) (rows : List Row) (rest : List (MContent FredPayload)),
       rows ≠ [] →
       get_fred_data (fredSuccessWire t u fr rows rest) =
         (some (rows.filter (fun r => r.value.isSome)), ⟨t, u, fr⟩)) ∧
    (∀ f : List Row, sortedByDate (transform_to_yoy f)) := by
  constructor
  · intro t u fr rows rest hne
    cases rows with
    | nil => exact absurd rfl hne
    | cons r rs => rfl
  · intro f
    have h1 : List.Pairwise dleP (pct_col (sortByDate f)) :=
      pairwise_zip_upd _ _ (pairwise_sortByDate f)
    exact List.Pairwise.sublist (List.filter_sublist _) h1

/-- Witness for C5 (amended): a frame with one unparsable value decodes to
the parsable rows in remote order. -/
theorem c5_decode_and_sort_witness :
    get_fred_data (fredSuccessWire "T" "U" "Monthly"
        [⟨⟨2020, 2, 1⟩, some 5⟩, ⟨⟨2020, 3, 1⟩, none⟩, ⟨⟨2020, 1, 1⟩, some 3⟩] []) =
      (some [⟨⟨2020, 2, 1⟩, some 5⟩, ⟨⟨2020, 1, 1⟩, some 3⟩],
       ⟨"T", "U", "Monthly"⟩) := by
  have h := c5_decode_and_sort.1 "T" "U" "Monthly"
    [⟨⟨2020, 2, 1⟩, some 5⟩, ⟨⟨2020, 3, 1⟩, none⟩, ⟨⟨2020, 1, 1⟩, some 3⟩] []
    (by decide)
  rw [h]
  rfl

/-- Reading just past the end of a heap extension yields the new frame. -/
theorem readH_concat (h : List (List Row)) (f : List Row) :
    readH (h ++ [f]) h.length = f := by
  simp [readH, List.getD_eq_getElem?_getD, List.getElem?_concat_length]

/-- The heap execution of `transform_to_yoy`, in closed form: the local
copy is allocated, sorted into a second fresh frame, that frame is
overwritten in place with the new value column, and the dropna result is
allocated and returned. -/
theorem transform_to_yoy_heap_eq (h : List (List Row)) (a : Nat) :
    transform_to_yoy_heap h a =
      ((h ++ [readH h a] ++ [sortByDate (readH h a)]).set (h.length + 1)
          (pct_col (sortByDate (readH h a))) ++ [transform_to_yoy (readH h a)],
       h.length + 1 + 1) := by
  have e1 : readH (h ++ [readH h a]) (h ++ [readH h a]).length.pred = readH h a := by
    simpa using readH_concat h (readH h a)
  simp only [transform_to_yoy_heap, allocH, writeH]
  rw [readH_concat, readH_concat]
  have e3 : readH ((h ++ [readH h a] ++ [sortByDate (readH h a)]).set
      (h ++ [readH h a]).length (pct_col (sortByDate (readH h a))))
      (h ++ [readH h a]).length = pct_col (sortByDate (readH h a)) := by
    simp only [readH, List.getD_eq_getElem?_getD]
    rw [List.getElem?_set_self (by simp)]
    rfl
  rw [e3]
  simp [transform_to_yoy]

/-- C10: the heap execution never changes the frame the caller passed in,
and the frame it returns is the pure transform of the input. -/
theorem c10_no_mutation (h : List (List Row)) (a : Nat) (ha : a < h.length) :
    readH (transform_to_yoy_heap h a).1 a = readH h a ∧
    readH (transform_to_yoy_heap h a).1 (transform_to_yoy_heap h a).2 =
      transform_to_yoy (readH h a) := by
  rw [transform_to_yoy_heap_eq]
  constructor
  · simp only [readH, List.getD_eq_getElem?_getD]
    rw [List.getElem?_append_left (by simp [List.length_set]; omega),
      List.getElem?_set_ne (by omega),
      List.getElem?_append_left (by simp; omega),
      List.getElem?_append_left (by omega)]
  · have hl : ((h ++ [readH h a] ++ [sortByDate (readH h a)]).set (h.length + 1)
        (pct_col (sortByDate (readH h a)))).length = h.length + 1 + 1 := by
      simp [List.length_set]
    rw [← hl]
    exact readH_concat _ _

/-- Witness for C10 on a one-frame heap. -/
theorem c10_no_mutation_witness :
    readH (transform_to_yoy_heap [[⟨⟨2021, 4, 1⟩, some 7⟩]] 0).1 0 =
      readH [[⟨⟨2021, 4, 1⟩, some 7⟩]] 0 ∧
    readH (transform_to_yoy_heap [[⟨⟨2021, 4, 1⟩, some 7⟩]] 0).1
        (transform_to_yoy_heap [[⟨⟨2021, 4, 1⟩, some 7⟩]] 0).2 =
      transform_to_yoy (readH [[⟨⟨2021, 4, 1⟩, some 7⟩]] 0) :=
  c10_no_mutation [[⟨⟨2021, 4, 1⟩, some 7⟩]] 0 (by decide)

/-- Insertion grows the length by one. -/
theorem length_insertRow (a : Row) : ∀ l : List Row, (insertRow a l).length = l.length + 1 := by
  intro l
  induction l with
  | nil => rfl
  | cons b t ih =>
    unfold insertRow
    split
    · rfl
    · simp [ih]

/-- The sort preserves length. -/
theorem length_sortByDate : ∀ l : List Row, (sortByDate l).length = l.length := by
  intro l
  induction l with
  | nil => rfl
  | cons a t ih => simp [sortByDate, length_insertRow, ih]

/-- Rows zipped against the NaN block all carry a NaN value. -/
theorem mem_zip_replicate_none :
    ∀ (l : List Row) (k : Nat) (x : Row),
      x ∈ List.zipWith (fun r v => { r with value := v }) l
        (List.replicate k (none : Option ℚ)) → x.value = none := by
  intro l
  induction l with
  | nil => intro k x h; simp at h
  | cons a t ih =>
    intro k x h
    cases k with
    | zero => simp at h
    | succ k =>
      rcases List.mem_cons.mp h with rfl | h
      · rfl
      · exact ih k x h

/-- Every entry of the lag-12 percent-change block is present. -/
theorem all_some_zip :
    ∀ (v vd : List ℚ) (o : Option ℚ),
      o ∈ List.zipWith (fun a b => some ((b / a - 1) * 100)) v vd → o.isSome = true := by
  intro v
  induction v with
  | nil => intro vd o h; simp at h
  | cons a t ih =>
    intro vd o h
    cases vd with
    | nil => simp at h
    | cons b bt =>
      rcases List.mem_cons.mp h with rfl | h
      · rfl
      · exact ih bt o h

/-- Rows zipped against an all-present column all carry a present value. -/
theorem mem_zip_upd_isSome :
    ∀ (l : List Row) (ol : List (Option ℚ)), (∀ o ∈ ol, o.isSome = true) →
      ∀ x ∈ List.zipWith (fun r v => { r with value := v }) l ol, x.value.isSome = true := by
  intro l
  induction l with
  | nil => intro ol _ x h; simp at h
  | cons a t ih =>
    intro ol hol x h
    cases ol with
    | nil => simp at h
    | cons o ot =>
      rcases List.mem_cons.mp h with rfl | h
      · exact hol o (List.mem_cons_self o ot)
      · exact ih ot (fun o ho => hol o (List.mem_cons_of_mem _ ho)) x h

/-- C2: on a gap-free monthly frame whose date-sorted value column is the
strictly increasing positive sequence `v` of length at least 12, the
transform returns length minus 12 rows and the `j`-th value is
`(v[j+12] - v[j]) / v[j] * 100`. -/
theorem c2_yoy_values (f : List Row) (v : List ℚ)
    (hv : (sortByDate f).map (fun r => r.value) = v.map some)
    (h12 : 12 ≤ f.length)
    (hpos : ∀ x ∈ v, 0 < x)
    (hmono : v.Chain' (· < ·)) :
    (transform_to_yoy f).length = f.length - 12 ∧
    ∀ j, j < f.length - 12 →
      ((transform_to_yoy f).map (fun r => r.value))[j]? =
        some (some ((v.getD (j + 12) 0 - v.getD j 0) / v.getD j 0 * 100)) := by
  have hsl : (sortByDate f).length = f.length := length_sortByDate f
  have hvl : v.length = f.length := by
    have h := congrArg List.length hv
    simp only [List.length_map, hsl] at h
    omega
  have hvals : (pct_change12 ((sortByDate f).map (fun r => r.value))).map
      (Option.map (fun x => x * 100)) =
      List.replicate 12 (none : Option ℚ) ++
        List.zipWith (fun a b => some ((b / a - 1) * 100)) v (v.drop 12) := by
    rw [hv]
    unfold pct_change12
    have hmin : min 12 ((v.map (some : ℚ → Option ℚ)).length) = 12 := by
      simp only [List.length_map]
      omega
    rw [List.map_append, hmin, List.map_replicate,
      ← List.map_drop, List.zipWith_map, List.map_zipWith]
    rfl
  have htk : ((sortByDate f).take 12).length = 12 := by
    simp only [List.length_take, hsl]
    omega
  have hsplit : pct_col (sortByDate f) =
      List.zipWith (fun r v => { r with value := v }) ((sortByDate f).take 12)
        (List.replicate 12 none) ++
      List.zipWith (fun r v => { r with value := v }) ((sortByDate f).drop 12)
        (List.zipWith (fun a b => some ((b / a - 1) * 100)) v (v.drop 12)) := by
    unfold pct_col
    rw [hvals]
    conv_lhs => rw [← List.take_append_drop 12 (sortByDate f)]
    rw [List.zipWith_append _ _ _ _ _ (by rw [htk, List.length_replicate])]
  have hA : List.filter (fun r => r.value.isSome)
      (List.zipWith (fun r v => { r with value := v }) ((sortByDate f).take 12)
        (List.replicate 12 none)) = [] := by
    refine List.filter_eq_nil_iff.mpr ?_
    intro x hx
    rw [mem_zip_replicate_none _ _ _ hx]
    simp
  have hB : List.filter (fun r => r.value.isSome)
      (List.zipWith (fun r v => { r with value := v }) ((sortByDate f).drop 12)
        (List.zipWith (fun a b => some ((b / a - 1) * 100)) v (v.drop 12))) =
      List.zipWith (fun r v => { r with value := v }) ((sortByDate f).drop 12)
        (List.zipWith (fun a b => some ((b / a - 1) * 100)) v (v.drop 12)) := by
    refine List.filter_eq_self.mpr ?_
    intro x hx
    exact mem_zip_upd_isSome _ _ (fun o ho => all_some_zip _ _ o ho) x hx
  have htr : transform_to_yoy f =
      List.zipWith (fun r v => { r with value := v }) ((sortByDate f).drop 12)
        (List.zipWith (fun a b => some ((b / a - 1) * 100)) v (v.drop 12)) := by
    unfold transform_to_yoy dropnaF
    rw [hsplit, List.filter_append, hA, hB]
    rfl
  constructor
  · rw [htr]
    simp only [List.length_zipWith, List.length_drop, hsl, hvl]
    omega
  · intro j hj
    have hj1 : j < v.length := by omega
    have hj2 : j + 12 < v.length := by omega
    have hs2 : 12 + j < (sortByDate f).length := by omega
    rw [htr, List.getElem?_map, List.getElem?_zipWith, List.getElem?_drop,
      List.getElem?_eq_getElem hs2, List.getElem?_zipWith, List.getElem?_drop,
      List.getElem?_eq_getElem hj1]
    simp only [Nat.add_comm 12 j]
    rw [List.getElem?_eq_getElem hj2]
    have hvj : (0 : ℚ) < v[j] := hpos _ (List.getElem_mem hj1)
    have harith : (v[j + 12] / v[j] - 1) = (v[j + 12] - v[j]) / v[j] := by
      rw [sub_div, div_self (ne_of_gt hvj)]
    rw [List.getD_eq_getElem v 0 hj2, List.getD_eq_getElem v 0 hj1, ← harith]
    rfl

/-- Thirteen gap-free monthly rows with values 1..13. -/
def f13 : List Row :=
  [⟨⟨2020, 1, 1⟩, some 1⟩, ⟨⟨2020, 2, 1⟩, some 2⟩, ⟨⟨2020, 3, 1⟩, some 3⟩,
   ⟨⟨2020, 4, 1⟩, some 4⟩, ⟨⟨2020, 5, 1⟩, some 5⟩, ⟨⟨2020, 6, 1⟩, some 6⟩,
   ⟨⟨2020, 7, 1⟩, some 7⟩, ⟨⟨2020, 8, 1⟩, some 8⟩, ⟨⟨2020, 9, 1⟩, some 9⟩,
   ⟨⟨2020, 10, 1⟩, some 10⟩, ⟨⟨2020, 11, 1⟩, some 11⟩, ⟨⟨2020, 12, 1⟩, some 12⟩,
   ⟨⟨2021, 1, 1⟩, some 13⟩]

/-- The value column of `f13`. -/
def v13 : List ℚ :=
  [1, 2, 3, 4, 5, 6, 7, 8, 9, 10, 11, 12, 13]

/-- Witness for C2 on the thirteen-point series 1..13. -/
theorem c2_yoy_values_witness :
    (transform_to_yoy f13).length = f13.length - 12 ∧
    ((transform_to_yoy f13).map (fun r => r.value))[0]? =
      some (some ((v13.getD (0 + 12) 0 - v13.getD 0 0) / v13.getD 0 0 * 100)) :=
  ⟨(c2_yoy_values f13 v13 (by decide) (by decide) (by decide)
      (by simp only [v13, List.chain'_cons, List.chain'_singleton, and_true]; norm_num)).1,
   (c2_yoy_values f13 v13 (by decide) (by decide) (by decide)
      (by simp only [v13, List.chain'_cons, List.chain'_singleton, and_true]; norm_num)).2
     0 (by decide)⟩
